import Mathlib

/- Verification of the rate-derivation and synchronization engine of
scripts/push-hz-prices.py.

The script is embedded shallowly: Python float arithmetic is modelled by
exact rational arithmetic over ℚ (every numeric literal in the script is a
decimal literal, and every claim checked here is robust far above the
10^-16 relative error of binary64), Python ints by ℤ, fallible stages by
Except, and the network by an explicit environment record holding the
response of each endpoint.  sys.exit / uncaught-exception exit paths are
mapped to the error taxonomy of the design document (Err below).  The list
of HTTP requests actually issued by a run is made observable as a trace of
NetCall values. -/

/- Error taxonomy (section 7 of the design document), mapped onto the
distinct fatal exit paths of the script. -/

inductive Err where
  | emptyInventory
  | noPriceableServers
  | assertionFailure
  | authenticationError
  | projectDiscoveryError
  | updateRejected
deriving DecidableEq, Repr

/- Pricing catalog (script lines 82-94).  price_lookup maps a server-type
name and a location name to the net hourly and monthly price.  The nested
dict of the script is modelled as an association list keyed by the pair
(server_type, location); dict keys are unique, so first-match lookup is
faithful. -/

structure PriceEntry where
  hourly : ℚ
  monthly : ℚ
deriving DecidableEq, Repr

abbrev Catalog : Type := List ((String × String) × PriceEntry)

def lookupPrice (cat : Catalog) (stype loc : String) : Option PriceEntry :=
  (cat.find? (fun kv => decide (kv.1 = (stype, loc)))).map (fun kv => kv.2)

/- One active server as consumed by the aggregation loop (lines 109-113):
its name, server-type name, location name, core count and memory size. -/

structure Server where
  name : String
  server_type : String
  location : String
  cores : ℤ
  memory : ℚ
deriving DecidableEq, Repr

/- Fleet totals accumulated by the loop of lines 104-126. -/

structure FleetTotals where
  total_hourly : ℚ
  total_vcpus : ℤ
  total_ram_gb : ℚ
deriving DecidableEq, Repr

/- One iteration of the aggregation loop (lines 109-126): look the server
up in the catalog; on a miss the server is only logged and the totals are
left unchanged (the continue of line 118); on a hit its hourly price,
cores and memory are added to the running totals. -/

def aggStep (cat : Catalog) (t : FleetTotals) (s : Server) : FleetTotals :=
  match lookupPrice cat s.server_type s.location with
  | none => t
  | some p =>
      ⟨t.total_hourly + p.hourly, t.total_vcpus + s.cores, t.total_ram_gb + s.memory⟩

def aggregate (cat : Catalog) (servers : List Server) : FleetTotals :=
  servers.foldl (aggStep cat) ⟨0, 0, 0⟩

/- Whether the catalog resolves a price for a server, and the resolved
hourly price (0 is a placeholder never used on the resolvable subset). -/

def resolvable (cat : Catalog) (s : Server) : Bool :=
  (lookupPrice cat s.server_type s.location).isSome

def priceOf (cat : Catalog) (s : Server) : ℚ :=
  ((lookupPrice cat s.server_type s.location).map PriceEntry.hourly).getD 0

/- The componentwise sums over the price-resolvable subset of a server
list: the form the specification says the fleet totals must equal. -/

def sumResolvable (cat : Catalog) (servers : List Server) : FleetTotals :=
  ⟨((servers.filter (resolvable cat)).map (priceOf cat)).sum,
   ((servers.filter (resolvable cat)).map Server.cores).sum,
   ((servers.filter (resolvable cat)).map Server.memory).sum⟩

/- CPU:memory cost ratio constant of line 43: 0.03465 / 0.003938
(evaluating to 17325/1969, approximately 8.7989). -/

def CPU_MEMORY_RATIO : ℚ := 0.03465 / 0.003938

structure DerivedRates where
  per_cpu : ℚ
  per_memory : ℚ
deriving DecidableEq, Repr

/- Rate derivation, lines 137-138. -/

def per_memory (t : FleetTotals) : ℚ :=
  t.total_hourly / ( CPU_MEMORY_RATIO * (t.total_vcpus : ℚ) + t.total_ram_gb)

def per_cpu (t : FleetTotals) : ℚ :=
  CPU_MEMORY_RATIO * per_memory t

/- Lines 137-145: compute the two rates, then assert the reconstruction
invariant with tolerance 1e-9; a failing assert is a fatal internal error
(AssertionFailure in the design-document taxonomy). -/

def derive_rates (t : FleetTotals) : Except Err DerivedRates :=
  if |per_cpu t * (t.total_vcpus : ℚ) + per_memory t * t.total_ram_gb - t.total_hourly| < 1e-9
  then Except.ok ⟨per_cpu t, per_memory t⟩
  else Except.error Err.assertionFailure

/- The closed-form solve exactly as the specification states it, for the
refinement claim C5: pm = H / (ratio * C + M), pc = ratio * pm. -/

def derive_rates_spec_formula (t : FleetTotals) : DerivedRates :=
  ⟨ CPU_MEMORY_RATIO * (t.total_hourly / ( CPU_MEMORY_RATIO * (t.total_vcpus : ℚ) + t.total_ram_gb)),
    t.total_hourly / ( CPU_MEMORY_RATIO * (t.total_vcpus : ℚ) + t.total_ram_gb)⟩

/- Coroot requests (coroot_request, lines 62-77) either return the parsed
JSON body — None when the body is empty or whitespace — or raise a
RuntimeError carrying the HTTP status on an HTTPError.  ReqOutcome.ok
carries that Option body; ReqOutcome.err is the raised RuntimeError. -/

inductive ReqOutcome (α : Type) where
  | ok (body : Option α)
  | err
deriving DecidableEq, Repr

/- One project descriptor of the /api/projects response.  name is none
when the key is absent or null (dict.get returns None in both cases);
likewise id. -/

structure ProjectEntry where
  pname : Option String
  pid : Option String
deriving DecidableEq, Repr

/- The body of the projects-list response: either a JSON list of project
entries or some other JSON value (the isinstance check of line 160 fails
on the latter). -/

inductive ListBody where
  | jlist (entries : List ProjectEntry)
  | nonList
deriving DecidableEq, Repr

/- Line 161: projects[0].get("name") or projects[0].get("id", "default").
In Python the or falls through when get("name") is None OR the empty
string (both falsy); get("id", "default") yields "default" only when the
id key is absent. -/

def entryProject (e : ProjectEntry) : String :=
  match e.pname with
  | some n => if n = "" then e.pid.getD "default" else n
  | none => e.pid.getD "default"

/- The first branch of discovery (lines 158-165): succeeds only when the
list endpoint returned, without error, a JSON list with at least one
entry; in every other case (HTTP error, empty body, non-list JSON, empty
list) control falls through to the overview probe. -/

def listBranch (lr : ReqOutcome ListBody) : Option String :=
  match lr with
  | .ok (some (.jlist (e :: _))) => some (entryProject e)
  | _ => none

/- Project discovery (lines 155-181): try the projects list; on fallback
probe the overview of the single candidate "default" — the probe confirms
the candidate only when its response parsed to a non-None body (line 171);
an HTTP error is swallowed (line 175-176); if no candidate confirmed, the
script exits with the discovery error (lines 177-181). -/

def discover (lr : ReqOutcome ListBody) (ov : ReqOutcome Unit) : Except Err String :=
  match listBranch lr with
  | some p => Except.ok p
  | none =>
      match ov with
      | .ok (some _) => Except.ok "default"
      | _ => Except.error Err.projectDiscoveryError

/- The HTTP requests a run can issue, in order of the script: the two
Hetzner fetches, the login, the projects list, the overview probe of a
candidate, and the final pricing update. -/

inductive NetCall where
  | pricingCall
  | serversCall
  | loginCall
  | projectsListCall
  | overviewCall (candidate : String)
  | updateCall (project : String) (rates : DerivedRates)
deriving DecidableEq, Repr

/- Which discovery requests are issued: the list call always, the
overview probe only when the list branch did not resolve a project. -/

def discoveryActions (lr : ReqOutcome ListBody) : List NetCall :=
  match listBranch lr with
  | some _ => [NetCall.projectsListCall]
  | none => [NetCall.projectsListCall, NetCall.overviewCall "default"]

/- The environment of one run: the two Hetzner responses (catalog and
server list, already parsed) and the outcome of each Coroot endpoint,
plus the optional COROOT_PROJECT override ("" when unset). -/

structure Env where
  catalog : Catalog
  servers : List Server
  login : ReqOutcome Unit
  listProjects : ReqOutcome ListBody
  overviewDefault : ReqOutcome Unit
  update : ReqOutcome Unit
  corootProject : String

/- Stages 1-3 of the script (lines 82-145): both Hetzner fetches happen
unconditionally; an empty server list exits at lines 99-100; aggregation
runs; total_vcpus == 0 exits at lines 128-129; then the rates are derived
and asserted. -/

def preLogin (env : Env) : Except Err DerivedRates :=
  if env.servers = [] then Except.error Err.emptyInventory
  else if (aggregate env.catalog env.servers).total_vcpus = 0 then
    Except.error Err.noPriceableServers
  else derive_rates (aggregate env.catalog env.servers)

/- Posting the rates (lines 185-188): an HTTP error on the update is
fatal (UpdateRejected); otherwise the run succeeds with the project and
rates that were posted. -/

def finishUpdate (env : Env) (proj : String) (rates : DerivedRates)
    (tr : List NetCall) : Except Err (String × DerivedRates) × List NetCall :=
  match env.update with
  | .err => (Except.error Err.updateRejected, tr ++ [NetCall.updateCall proj rates])
  | .ok _ => (Except.ok (proj, rates), tr ++ [NetCall.updateCall proj rates])

/- Stages 4-6 (lines 149-188): login — an HTTP error raises out of
coroot_request uncaught, the AuthenticationError exit; then discovery
unless COROOT_PROJECT is set; then the update. -/

def sessionPart (env : Env) (rates : DerivedRates) :
    Except Err (String × DerivedRates) × List NetCall :=
  match env.login with
  | .err => (Except.error Err.authenticationError,
             [NetCall.pricingCall, NetCall.serversCall, NetCall.loginCall])
  | .ok _ =>
      if env.corootProject = "" then
        match discover env.listProjects env.overviewDefault with
        | .error e =>
            (Except.error e,
             [NetCall.pricingCall, NetCall.serversCall, NetCall.loginCall]
               ++ discoveryActions env.listProjects)
        | .ok proj =>
            finishUpdate env proj rates
              ([NetCall.pricingCall, NetCall.serversCall, NetCall.loginCall]
                 ++ discoveryActions env.listProjects)
      else
        finishUpdate env env.corootProject rates
          [NetCall.pricingCall, NetCall.serversCall, NetCall.loginCall]

/- One whole run of the script, returning its outcome and the trace of
HTTP requests it issued.  Every pre-login failure happens after the two
Hetzner fetches and before any Coroot request. -/

def runPipeline (env : Env) : Except Err (String × DerivedRates) × List NetCall :=
  match preLogin env with
  | .error e => (Except.error e, [NetCall.pricingCall, NetCall.serversCall])
  | .ok rates => sessionPart env rates

/- ------------------------------------------------------------------ -/
/- Helper lemmas shared by the claim theorems. -/

theorem ratio_pos : 0 < CPU_MEMORY_RATIO := by
  norm_num [ CPU_MEMORY_RATIO]

theorem denom_pos (t : FleetTotals) (hC : 0 < t.total_vcpus)
    (hM : 0 ≤ t.total_ram_gb) :
    0 < CPU_MEMORY_RATIO * (t.total_vcpus : ℚ) + t.total_ram_gb := by
  have hCq : (0 : ℚ) < (t.total_vcpus : ℚ) := by exact_mod_cast hC
  have := mul_pos ratio_pos hCq
  linarith

theorem reconstruction_exact (t : FleetTotals) (hC : 0 < t.total_vcpus)
    (hM : 0 ≤ t.total_ram_gb) :
    per_cpu t * (t.total_vcpus : ℚ) + per_memory t * t.total_ram_gb = t.total_hourly := by
  have hd : CPU_MEMORY_RATIO * (t.total_vcpus : ℚ) + t.total_ram_gb ≠ 0 :=
    ne_of_gt (denom_pos t hC hM)
  unfold per_cpu per_memory
  field_simp
  ring

theorem derive_rates_ok (t : FleetTotals) (hC : 0 < t.total_vcpus)
    (hM : 0 ≤ t.total_ram_gb) :
    derive_rates t = Except.ok ⟨per_cpu t, per_memory t⟩ := by
  have hcond : |per_cpu t * (t.total_vcpus : ℚ) + per_memory t * t.total_ram_gb
      - t.total_hourly| < 1e-9 := by
    rw [reconstruction_exact t hC hM, sub_self, abs_zero]
    norm_num
  unfold derive_rates
  rw [if_pos hcond]

/- ------------------------------------------------------------------ -/

/-- Claim C1 — For every FleetTotals with total_vcpus C greater than 0 (and
total_ram_gb M nonnegative, as the data model requires), derive_rates
produces rates (pc, pm) with the reconstruction defect strictly below
1e-9 (in the exact-rational model the defect is 0) and pc equal to
CPU_MEMORY_RATIO times pm; the asserted invariant holds, so the
assertionFailure branch of derive_rates is not taken. -/
theorem C1_reconstruction_invariant (t : FleetTotals) (hC : 0 < t.total_vcpus)
    (hM : 0 ≤ t.total_ram_gb) :
    ∃ r : DerivedRates, derive_rates t = Except.ok r ∧
      |r.per_cpu * (t.total_vcpus : ℚ) + r.per_memory * t.total_ram_gb
        - t.total_hourly| < 1e-9 ∧
      r.per_cpu = CPU_MEMORY_RATIO * r.per_memory := by
  refine ⟨⟨per_cpu t, per_memory t⟩, derive_rates_ok t hC hM, ?_, rfl⟩
  show |per_cpu t * (t.total_vcpus : ℚ) + per_memory t * t.total_ram_gb
      - t.total_hourly| < 1e-9
  rw [reconstruction_exact t hC hM, sub_self, abs_zero]
  norm_num

theorem C1_witness :
    ∃ r : DerivedRates, derive_rates ⟨1, 1, 0⟩ = Except.ok r ∧
      |r.per_cpu * ((1 : ℤ) : ℚ) + r.per_memory * (0 : ℚ) - (1 : ℚ)| < 1e-9 ∧
      r.per_cpu = CPU_MEMORY_RATIO * r.per_memory :=
  C1_reconstruction_invariant ⟨1, 1, 0⟩ (by decide) (by decide)

/-- Claim C5 — For every FleetTotals with total_vcpus greater than 0 (and
nonnegative total_ram_gb), the derivation computes exactly the closed-form
solve of the specification: per_memory_gb = total_hourly /
(ratio * total_vcpus + total_ram_gb) and per_cpu_core = ratio *
per_memory_gb, and returns it successfully. -/
theorem C5_closed_form_solve (t : FleetTotals) (hC : 0 < t.total_vcpus)
    (hM : 0 ≤ t.total_ram_gb) :
    derive_rates t = Except.ok (derive_rates_spec_formula t) :=
  derive_rates_ok t hC hM

theorem C5_witness :
    derive_rates ⟨1, 1, 0⟩ = Except.ok (derive_rates_spec_formula ⟨1, 1, 0⟩) :=
  C5_closed_form_solve ⟨1, 1, 0⟩ (by decide) (by decide)

/- Except has no DecidableEq instance in the core library; provide one so
concrete run outcomes can be checked by evaluation. -/

instance {ε α : Type} [DecidableEq ε] [DecidableEq α] : DecidableEq (Except ε α) :=
  fun a b =>
  match a, b with
  | .ok x, .ok y =>
      if h : x = y then isTrue (congrArg Except.ok h)
      else isFalse (fun c => h (Except.ok.inj c))
  | .error x, .error y =>
      if h : x = y then isTrue (congrArg Except.error h)
      else isFalse (fun c => h (Except.error.inj c))
  | .ok _, .error _ => isFalse (fun c => Except.noConfusion c)
  | .error _, .ok _ => isFalse (fun c => Except.noConfusion c)

/- The exact value of the ratio constant, and the exact rates derived on
the H = 0.5, C = 8, M = 32 scenario of the specification. -/

theorem ratio_value : CPU_MEMORY_RATIO = 1575/179 := by
  norm_num [ CPU_MEMORY_RATIO]

theorem per_memory_scenario : per_memory ⟨1/2, 8, 32⟩ = 179/36656 := by
  norm_num [per_memory, CPU_MEMORY_RATIO]

theorem per_cpu_scenario : per_cpu ⟨1/2, 8, 32⟩ = 1575/36656 := by
  rw [per_cpu, per_memory_scenario, ratio_value]
  norm_num

theorem derive_rates_scenario :
    derive_rates ⟨1/2, 8, 32⟩ = Except.ok ⟨1575/36656, 179/36656⟩ := by
  have hcond : |per_cpu ⟨1/2, 8, 32⟩ * (((⟨1/2, 8, 32⟩ : FleetTotals).total_vcpus : ℤ) : ℚ)
      + per_memory ⟨1/2, 8, 32⟩ * (⟨1/2, 8, 32⟩ : FleetTotals).total_ram_gb
      - (⟨1/2, 8, 32⟩ : FleetTotals).total_hourly| < 1e-9 := by
    rw [per_cpu_scenario, per_memory_scenario]
    norm_num
  unfold derive_rates
  rw [if_pos hcond, per_cpu_scenario, per_memory_scenario]

/-- Claim C6 — counterexample.  On totals H = 0.5, C = 8, M = 32 the
derivation does NOT produce pm = 0.0048828125 and pc = 0.04296875: the
ratio constant of the script is 0.03465 / 0.003938 = 1575/179, which is
approximately 8.79888, not 8.8, so the claimed values (which assume the
ratio is exactly 8.8) differ from the computed ones by about 5e-7. -/
theorem C6_counterexample :
    derive_rates ⟨1/2, 8, 32⟩ ≠ Except.ok ⟨0.04296875, 0.0048828125⟩ := by
  intro h
  have h2 := Except.ok.inj (derive_rates_scenario.symm.trans h)
  have h3 : (179/36656 : ℚ) = 0.0048828125 := congrArg DerivedRates.per_memory h2
  norm_num at h3

/-- Claim C6 (amended) — On totals H = 0.5, C = 8, M = 32 the derivation,
whose ratio constant is R = 0.03465/0.003938 = 1575/179 (approximately
8.79888, not exactly 8.8), produces pm = 0.5/(R*8+32) = 179/36656
(approximately 0.0048832) and pc = R*pm = 1575/36656 (approximately
0.0429683), and the reconstruction pc*8 + pm*32 equals 0.5 exactly. -/
theorem C6_amended_values :
    derive_rates ⟨1/2, 8, 32⟩ = Except.ok ⟨1575/36656, 179/36656⟩ ∧
    (1575/36656 : ℚ) * 8 + (179/36656 : ℚ) * 32 = 1/2 := by
  constructor
  · exact derive_rates_scenario
  · norm_num

/- ------------------------------------------------------------------ -/
/- Aggregation lemmas. -/

theorem foldl_aggStep_eq (cat : Catalog) (ss : List Server) (t : FleetTotals) :
    ss.foldl (aggStep cat) t =
      ⟨t.total_hourly + (sumResolvable cat ss).total_hourly,
       t.total_vcpus + (sumResolvable cat ss).total_vcpus,
       t.total_ram_gb + (sumResolvable cat ss).total_ram_gb⟩ := by
  induction ss generalizing t with
  | nil =>
      cases t
      simp [sumResolvable]
  | cons s ss ih =>
      cases hl : lookupPrice cat s.server_type s.location with
      | none =>
          have hres : resolvable cat s = false := by simp [resolvable, hl]
          have hstep : aggStep cat t s = t := by simp [aggStep, hl]
          simp only [List.foldl_cons, hstep, ih]
          simp [sumResolvable, List.filter_cons, hres]
      | some p =>
          have hres : resolvable cat s = true := by simp [resolvable, hl]
          have hstep : aggStep cat t s =
              ⟨t.total_hourly + p.hourly, t.total_vcpus + s.cores,
               t.total_ram_gb + s.memory⟩ := by simp [aggStep, hl]
          simp only [List.foldl_cons, hstep, ih]
          cases t
          simp only [sumResolvable, List.filter_cons, hres, if_pos,
            List.map_cons, List.sum_cons, priceOf, hl, FleetTotals.mk.injEq]
          simp only [Option.map_some', Option.getD_some]
          refine ⟨by ring, by ring, by ring⟩

theorem aggregate_eq_sumResolvable (cat : Catalog) (ss : List Server) :
    aggregate cat ss = sumResolvable cat ss := by
  unfold aggregate
  rw [foldl_aggStep_eq]
  cases h : sumResolvable cat ss
  simp

/-- Claim C3 — a server whose server-type and location resolve no catalog
price does not affect the fleet totals: aggregating a list containing one
unresolvable entry yields the same totals as aggregating the list with
that entry removed, and the totals equal the componentwise sums over only
the price-resolvable subset. -/
theorem C3_skip_semantics (cat : Catalog) (l1 l2 : List Server) (s : Server)
    (h : lookupPrice cat s.server_type s.location = none) :
    aggregate cat (l1 ++ s :: l2) = aggregate cat (l1 ++ l2) ∧
    aggregate cat (l1 ++ s :: l2) = sumResolvable cat (l1 ++ s :: l2) := by
  have hres : resolvable cat s = false := by simp [resolvable, h]
  constructor
  · rw [aggregate_eq_sumResolvable, aggregate_eq_sumResolvable]
    simp [sumResolvable, List.filter_append, List.filter_cons, hres]
  · exact aggregate_eq_sumResolvable cat (l1 ++ s :: l2)

theorem C3_witness :
    aggregate [(("a", "x"), ⟨1/10, 5⟩)]
        ([⟨"good", "a", "x", 2, 4⟩] ++ ⟨"bad", "b", "x", 8, 16⟩ :: []) =
      aggregate [(("a", "x"), ⟨1/10, 5⟩)] ([⟨"good", "a", "x", 2, 4⟩] ++ []) ∧
    aggregate [(("a", "x"), ⟨1/10, 5⟩)]
        ([⟨"good", "a", "x", 2, 4⟩] ++ ⟨"bad", "b", "x", 8, 16⟩ :: []) =
      sumResolvable [(("a", "x"), ⟨1/10, 5⟩)]
        ([⟨"good", "a", "x", 2, 4⟩] ++ ⟨"bad", "b", "x", 8, 16⟩ :: []) :=
  C3_skip_semantics [(("a", "x"), ⟨1/10, 5⟩)] [⟨"good", "a", "x", 2, 4⟩] []
    ⟨"bad", "b", "x", 8, 16⟩ (by decide)

/- ------------------------------------------------------------------ -/
/- Degenerate-fleet and stage-ordering lemmas on the pipeline. -/

theorem aggregate_all_unresolvable (cat : Catalog) (ss : List Server)
    (hall : ∀ s ∈ ss, lookupPrice cat s.server_type s.location = none) :
    aggregate cat ss = ⟨0, 0, 0⟩ := by
  have hfil : ss.filter (resolvable cat) = [] := by
    rw [List.filter_eq_nil_iff]
    intro s hs
    simp [resolvable, hall s hs]
  rw [aggregate_eq_sumResolvable]
  simp [sumResolvable, hfil]

/-- Claim C4 — on a non-empty server list in which every entry is
unresolvable against the catalog, the fold leaves the totals at zero and
the run fails with NoPriceableServers right after the fold: the returned
trace stops at the two fetches, so the rate derivation (and its division)
is never reached and no Coroot request is issued. -/
theorem C4_degenerate_fleet (env : Env) (hne : env.servers ≠ [])
    (hall : ∀ s ∈ env.servers,
      lookupPrice env.catalog s.server_type s.location = none) :
    aggregate env.catalog env.servers = ⟨0, 0, 0⟩ ∧
    runPipeline env =
      (Except.error Err.noPriceableServers, [NetCall.pricingCall, NetCall.serversCall]) := by
  have hagg := aggregate_all_unresolvable env.catalog env.servers hall
  refine ⟨hagg, ?_⟩
  simp [runPipeline, preLogin, hne, hagg]

theorem C4_witness :
    aggregate [] [⟨"s1", "a", "x", 2, 4⟩] = ⟨0, 0, 0⟩ ∧
    runPipeline ⟨[], [⟨"s1", "a", "x", 2, 4⟩], .ok none, .ok none, .ok none, .ok none, ""⟩ =
      (Except.error Err.noPriceableServers, [NetCall.pricingCall, NetCall.serversCall]) :=
  C4_degenerate_fleet
    ⟨[], [⟨"s1", "a", "x", 2, 4⟩], .ok none, .ok none, .ok none, .ok none, ""⟩
    (by decide) (by decide)

/-- Claim C8 — when the fetched server list is empty, the run fails with
EmptyInventory at the fetch stage: the trace contains only the two
Hetzner fetches, so aggregation (and everything after it) never runs,
whatever the rest of the environment holds. -/
theorem C8_empty_inventory (env : Env) (hserv : env.servers = []) :
    runPipeline env =
      (Except.error Err.emptyInventory, [NetCall.pricingCall, NetCall.serversCall]) := by
  simp [runPipeline, preLogin, hserv]

theorem C8_witness :
    runPipeline ⟨[], [], .ok none, .ok none, .ok none, .ok none, ""⟩ =
      (Except.error Err.emptyInventory, [NetCall.pricingCall, NetCall.serversCall]) :=
  C8_empty_inventory ⟨[], [], .ok none, .ok none, .ok none, .ok none, ""⟩ rfl

/-- Claim C9 — when the run reaches login (servers non-empty, a positive
priced vCPU total with nonnegative RAM total) and login returns an HTTP
error, the run aborts with AuthenticationError and the trace ends at the
login call: no projects-list, overview or update request is ever
issued. -/
theorem C9_login_failure_aborts (env : Env) (hne : env.servers ≠ [])
    (hC : 0 < (aggregate env.catalog env.servers).total_vcpus)
    (hM : 0 ≤ (aggregate env.catalog env.servers).total_ram_gb)
    (hlogin : env.login = .err) :
    runPipeline env =
      (Except.error Err.authenticationError,
       [NetCall.pricingCall, NetCall.serversCall, NetCall.loginCall]) := by
  have hok := derive_rates_ok (aggregate env.catalog env.servers) hC hM
  have hnz : ¬ (aggregate env.catalog env.servers).total_vcpus = 0 := hC.ne'
  simp [runPipeline, preLogin, hne, hnz, hok, sessionPart, hlogin]

theorem C9_witness :
    runPipeline ⟨[(("a", "x"), ⟨1/10, 5⟩)], [⟨"s1", "a", "x", 2, 4⟩],
        .err, .ok none, .ok none, .ok none, ""⟩ =
      (Except.error Err.authenticationError,
       [NetCall.pricingCall, NetCall.serversCall, NetCall.loginCall]) :=
  C9_login_failure_aborts
    ⟨[(("a", "x"), ⟨1/10, 5⟩)], [⟨"s1", "a", "x", 2, 4⟩],
        .err, .ok none, .ok none, .ok none, ""⟩
    (by decide) (by decide) (by norm_num [aggregate, aggStep, lookupPrice]) rfl

/- ------------------------------------------------------------------ -/
/- Discovery claims. -/

/-- Claim C2 — counterexample.  The claim says that given a non-empty
project-list response the resolved project is the first entry NAME
whenever the name field is present (falling back to the id only when the
name field is absent).  But the script uses Python or-falsiness: a
present-but-empty name "" also falls through to the id, so with first
entry (name = "", id = "p1") discovery resolves "p1", not the present
name "". -/
theorem C2_counterexample :
    discover (.ok (some (.jlist [⟨some "", some "p1"⟩]))) (.ok none) = Except.ok "p1" ∧
    "p1" ≠ "" := by
  constructor
  · rfl
  · decide

/-- Claim C2 (amended) — discovery resolves in this order: given a
non-empty project-list response, the resolved project is the first entry
name if that name is present and non-empty, otherwise its id if the id
key is present, otherwise the literal "default"; given a list failure or
an empty list but an overview probe of "default" that succeeds with a
non-empty body, the resolved project is "default"; given failure of both
(probe HTTP error or probe success with empty body), discovery fails
with ProjectDiscoveryError. -/
theorem C2_amended_discovery_order :
    (∀ (e : ProjectEntry) (rest : List ProjectEntry) (ov : ReqOutcome Unit),
      discover (.ok (some (.jlist (e :: rest)))) ov =
        Except.ok (match e.pname with
          | some n => if n = "" then e.pid.getD "default" else n
          | none => e.pid.getD "default")) ∧
    (∀ lr : ReqOutcome ListBody, listBranch lr = none →
      discover lr (.ok (some ())) = Except.ok "default") ∧
    (∀ (lr : ReqOutcome ListBody) (ov : ReqOutcome Unit), listBranch lr = none →
      (ov = .err ∨ ov = .ok none) →
      discover lr ov = Except.error Err.projectDiscoveryError) := by
  refine ⟨fun e rest ov => rfl, fun lr h => by simp [discover, h], ?_⟩
  intro lr ov h hov
  rcases hov with h2 | h2 <;> subst h2 <;> simp [discover, h]

theorem C2_amended_witness :
    discover (.ok (some (.jlist [⟨some "alpha", none⟩]))) .err = Except.ok "alpha" ∧
    discover .err (.ok (some ())) = Except.ok "default" ∧
    discover .err .err = Except.error Err.projectDiscoveryError := by
  refine ⟨?_, C2_amended_discovery_order.2.1 .err rfl,
    C2_amended_discovery_order.2.2 .err .err rfl (Or.inl rfl)⟩
  exact C2_amended_discovery_order.1 ⟨some "alpha", none⟩ [] .err

/-- Claim C7 — counterexample.  The claim says ANY non-error response
from the overview probe of "default" causes it to be used.  But a
non-error response whose body is empty parses to None (coroot_request
line 74), fails the "resp is not None" test of line 171, and is NOT
used: with the list endpoint failing and the probe returning an empty
body, discovery exits with the discovery error instead of resolving
"default". -/
theorem C7_counterexample :
    discover .err (.ok none) = Except.error Err.projectDiscoveryError ∧
    Except.error Err.projectDiscoveryError ≠ (Except.ok "default" : Except Err String) := by
  constructor
  · rfl
  · intro h
    exact Except.noConfusion h

/-- Claim C7 (amended) — during discovery fallback, a non-error overview
probe response with a non-empty (non-None) body confirms "default" and
causes it to be used as the resolved project; a non-error response with
an empty body does not confirm it, and with no further candidate the
discovery fails. -/
theorem C7_amended_probe (lr : ReqOutcome ListBody) (h : listBranch lr = none) :
    discover lr (.ok (some ())) = Except.ok "default" ∧
    discover lr (.ok none) = Except.error Err.projectDiscoveryError := by
  constructor <;> simp [discover, h]

theorem C7_amended_witness :
    discover .err (.ok (some ())) = Except.ok "default" ∧
    discover .err (.ok none) = Except.error Err.projectDiscoveryError :=
  C7_amended_probe .err rfl

/-- Claim C10 — during discovery from a non-empty project list, if the
first entry has neither a non-empty name value nor an id key, the
resolved project is the literal "default"; and an empty-string name falls
through to the id rather than being used. -/
theorem C10_name_id_fallthrough :
    (∀ (e : ProjectEntry) (rest : List ProjectEntry) (ov : ReqOutcome Unit),
      (e.pname = none ∨ e.pname = some "") → e.pid = none →
      discover (.ok (some (.jlist (e :: rest)))) ov = Except.ok "default") ∧
    (∀ (e : ProjectEntry) (rest : List ProjectEntry) (ov : ReqOutcome Unit) (i : String),
      e.pname = some "" → e.pid = some i →
      discover (.ok (some (.jlist (e :: rest)))) ov = Except.ok i) := by
  constructor
  · intro e rest ov hn hid
    rcases hn with h1 | h1 <;> simp [discover, listBranch, entryProject, h1, hid]
  · intro e rest ov i hn hid
    simp [discover, listBranch, entryProject, hn, hid]

theorem C10_witness :
    discover (.ok (some (.jlist [⟨none, none⟩]))) .err = Except.ok "default" ∧
    discover (.ok (some (.jlist [⟨some "", some "p9"⟩]))) (.ok none) = Except.ok "p9" :=
  ⟨C10_name_id_fallthrough.1 ⟨none, none⟩ [] .err (Or.inl rfl) rfl,
   C10_name_id_fallthrough.2 ⟨some "", some "p9"⟩ [] (.ok none) "p9" rfl rfl⟩
